import Mathlib

/-!
Verification of the seal-crypto capability layer.

Shallow embedding of the repository's AEAD wrapper
(src/systems/aead/chacha20_poly1305.rs), the Dilithium signature wrapper
(src/systems/asymmetric/post_quantum/dilithium.rs), the ECDH P-256 key
agreement wrapper (src/systems/asymmetric/traditional/ecdh.rs) and the key
lifecycle trait (src/traits/key.rs).  Bytes are `Nat`s, byte strings are
`List Nat`; mutable output buffers are passed and returned explicitly, so a
call that must leave the buffer untouched returns it unchanged.  The external
primitive provider (the chacha20poly1305 crate) is modelled concretely from
RFC 8439, which is the contract the spec assigns to it.
-/

-- ------------------- Error taxonomy -------------------

/-- Errors of key operations, from src/traits/key.rs. -/
inductive KeyError where
  | GenerationFailed
  | InvalidEncoding
  | InvalidLength
deriving DecidableEq, Repr

/-- Modelled from the spec: the symmetric/AEAD error kinds of the error
taxonomy (the errors module is not under src/; the variants appear verbatim
at the AEAD call sites and in spec section 7). -/
inductive SymmetricError where
  | InvalidKeySize
  | InvalidNonceSize
  | OutputTooSmall
  | InvalidCiphertext
  | Encryption
  | Decryption
deriving DecidableEq, Repr

/-- Modelled from the spec: the signature error kinds of the error taxonomy
(the errors module is not under src/; the variants appear verbatim at the
Dilithium call sites and in spec section 7). -/
inductive SignatureError where
  | Signing
  | Verification
  | InvalidSignature
deriving DecidableEq, Repr

/-- Modelled from the spec: the key-agreement error kind of the error
taxonomy (spec section 7). -/
inductive KeyAgreementError where
  | InvalidPeerPublicKey
deriving DecidableEq, Repr

/-- Modelled from the spec: the top-level error enum grouping the per-family
kinds, as used at every call site under src/ (Error::Symmetric(..),
Error::Key(..), Error::Signature(..), Error::KeyAgreement(..)). -/
inductive Error where
  | Key : KeyError → Error
  | Symmetric : SymmetricError → Error
  | Signature : SignatureError → Error
  | KeyAgreement : KeyAgreementError → Error
deriving DecidableEq, Repr

/-- Result of a fallible call, mirroring Rust's Result<α, Error>. -/
inductive CryptoResult (α : Type) where
  | ok : α → CryptoResult α
  | err : Error → CryptoResult α
deriving DecidableEq, Repr

-- ------------------- Byte and word helpers -------------------

/-- Little-endian serialization of a natural number into `k` bytes. -/
def natToLEBytes : Nat → Nat → List Nat
  | 0, _ => []
  | k + 1, n => n % 256 :: natToLEBytes k (n / 256)

/-- Little-endian value of a byte string. -/
def leNum : List Nat → Nat
  | [] => 0
  | b :: rest => b + 256 * leNum rest

/-- Little-endian 32-bit words of a byte string (groups of four bytes;
a trailing group shorter than four bytes is dropped, the callers only pass
multiples of four). -/
def bytesToWordsLE : List Nat → List Nat
  | b0 :: b1 :: b2 :: b3 :: rest =>
      (b0 + 2 ^ 8 * b1 + 2 ^ 16 * b2 + 2 ^ 24 * b3) :: bytesToWordsLE rest
  | _ => []

/-- Little-endian byte serialization of a list of 32-bit words. -/
def wordsToBytesLE : List Nat → List Nat
  | [] => []
  | w :: ws => natToLEBytes 4 w ++ wordsToBytesLE ws

theorem length_natToLEBytes (k : Nat) : ∀ n, (natToLEBytes k n).length = k := by
  induction k with
  | zero => intro n; rfl
  | succ m ih => intro n; simp [natToLEBytes, ih]

theorem length_bytesToWordsLE : ∀ l : List Nat, (bytesToWordsLE l).length = l.length / 4
  | [] => rfl
  | [_] => by simp [bytesToWordsLE]
  | [_, _] => by simp [bytesToWordsLE]
  | [_, _, _] => by simp [bytesToWordsLE]
  | b0 :: b1 :: b2 :: b3 :: rest => by
      simp [bytesToWordsLE, length_bytesToWordsLE rest]
      omega

theorem length_wordsToBytesLE : ∀ ws : List Nat, (wordsToBytesLE ws).length = 4 * ws.length
  | [] => rfl
  | w :: ws => by
      simp [wordsToBytesLE, length_natToLEBytes, length_wordsToBytesLE ws]
      ring

-- ------------------- ChaCha20 core (external primitive provider) -------------------

/-- Modelled from the spec: 32-bit left rotation, part of the external
primitive provider (RFC 8439 section 2.1); the stream-cipher mathematics is
out of scope for the repository and supplied by the chacha20poly1305 crate. -/
def rotl32 (x n : Nat) : Nat :=
  (((x <<< n) % 2 ^ 32) ||| (x >>> (32 - n)))

/-- Modelled from the spec: the ChaCha20 quarter round applied to state
positions `ia ib ic idd` (RFC 8439 section 2.1). -/
def quarterRound (s : List Nat) (ia ib ic idd : Nat) : List Nat :=
  let a := s.getD ia 0
  let b := s.getD ib 0
  let c := s.getD ic 0
  let d := s.getD idd 0
  let a := (a + b) % 2 ^ 32
  let d := rotl32 (d ^^^ a) 16
  let c := (c + d) % 2 ^ 32
  let b := rotl32 (b ^^^ c) 12
  let a := (a + b) % 2 ^ 32
  let d := rotl32 (d ^^^ a) 8
  let c := (c + d) % 2 ^ 32
  let b := rotl32 (b ^^^ c) 7
  (((s.set ia a).set ib b).set ic c).set idd d

/-- Modelled from the spec: one ChaCha20 double round, four column rounds
followed by four diagonal rounds (RFC 8439 section 2.3). -/
def doubleRound (s : List Nat) : List Nat :=
  let s := quarterRound s 0 4 8 12
  let s := quarterRound s 1 5 9 13
  let s := quarterRound s 2 6 10 14
  let s := quarterRound s 3 7 11 15
  let s := quarterRound s 0 5 10 15
  let s := quarterRound s 1 6 11 12
  let s := quarterRound s 2 7 8 13
  let s := quarterRound s 3 4 9 14
  s

/-- Modelled from the spec: the initial ChaCha20 state for a 32-byte key, a
12-byte nonce and a block counter (RFC 8439 section 2.3). -/
def chachaInit (key nonce : List Nat) (counter : Nat) : List Nat :=
  [0x61707865, 0x3320646e, 0x79622d32, 0x6b206574]
    ++ bytesToWordsLE key ++ [counter] ++ bytesToWordsLE nonce

/-- Modelled from the spec: the ChaCha20 block function as 16 output words:
ten double rounds, then wordwise addition of the initial state mod 2^32. -/
def chachaBlockWords (key nonce : List Nat) (counter : Nat) : List Nat :=
  let s0 := chachaInit key nonce counter
  let s := doubleRound^[10] s0
  List.zipWith (fun x y => (x + y) % 2 ^ 32) s s0

/-- Modelled from the spec: the 64-byte serialized ChaCha20 block. -/
def chachaBlockBytes (key nonce : List Nat) (counter : Nat) : List Nat :=
  wordsToBytesLE (chachaBlockWords key nonce counter)

/-- Modelled from the spec: `n` consecutive ChaCha20 keystream blocks
starting at the given counter. -/
def chachaKeystreamBlocks (key nonce : List Nat) : Nat → Nat → List Nat
  | _, 0 => []
  | counter, n + 1 =>
      chachaBlockBytes key nonce counter
        ++ chachaKeystreamBlocks key nonce (counter + 1) n

/-- Modelled from the spec: the first `len` bytes of the ChaCha20 encryption
keystream, which starts at block counter 1 (RFC 8439 section 2.4). -/
def chachaKeystream (key nonce : List Nat) (len : Nat) : List Nat :=
  (chachaKeystreamBlocks key nonce 1 ((len + 63) / 64)).take len

theorem length_quarterRound (s : List Nat) (ia ib ic idd : Nat) :
    (quarterRound s ia ib ic idd).length = s.length := by
  simp [quarterRound]

theorem length_doubleRound (s : List Nat) : (doubleRound s).length = s.length := by
  simp [doubleRound, length_quarterRound]

theorem length_doubleRound_iterate (n : Nat) (s : List Nat) :
    (doubleRound^[n] s).length = s.length := by
  induction n generalizing s with
  | zero => rfl
  | succ m ih =>
      rw [Function.iterate_succ_apply, ih, length_doubleRound]

theorem length_chachaInit (key nonce : List Nat) (counter : Nat)
    (hk : key.length = 32) (hn : nonce.length = 12) :
    (chachaInit key nonce counter).length = 16 := by
  simp [chachaInit, length_bytesToWordsLE, hk, hn]

theorem length_chachaBlockWords (key nonce : List Nat) (counter : Nat)
    (hk : key.length = 32) (hn : nonce.length = 12) :
    (chachaBlockWords key nonce counter).length = 16 := by
  have h0 := length_chachaInit key nonce counter hk hn
  have h1 : (doubleRound^[10] (chachaInit key nonce counter)).length = 16 := by
    rw [length_doubleRound_iterate]; exact h0
  simp only [chachaBlockWords, List.length_zipWith, h1, h0, Nat.min_self]

theorem length_chachaBlockBytes (key nonce : List Nat) (counter : Nat)
    (hk : key.length = 32) (hn : nonce.length = 12) :
    (chachaBlockBytes key nonce counter).length = 64 := by
  simp [chachaBlockBytes, length_wordsToBytesLE,
    length_chachaBlockWords key nonce counter hk hn]

theorem length_chachaKeystreamBlocks (key nonce : List Nat)
    (hk : key.length = 32) (hn : nonce.length = 12) :
    ∀ n counter, (chachaKeystreamBlocks key nonce counter n).length = 64 * n := by
  intro n
  induction n with
  | zero => intro counter; rfl
  | succ m ih =>
      intro counter
      simp [chachaKeystreamBlocks, ih,
        length_chachaBlockBytes key nonce counter hk hn]
      ring

theorem length_chachaKeystream (key nonce : List Nat) (len : Nat)
    (hk : key.length = 32) (hn : nonce.length = 12) :
    (chachaKeystream key nonce len).length = len := by
  simp [chachaKeystream, List.length_take,
    length_chachaKeystreamBlocks key nonce hk hn]
  omega

-- ------------------- Poly1305 (external primitive provider) -------------------

/-- Modelled from the spec: the Poly1305 prime 2^130 - 5 (RFC 8439
section 2.5); the MAC computation is out of scope for the repository and
supplied by the chacha20poly1305 crate. -/
def polyP : Nat := 2 ^ 130 - 5

/-- Modelled from the spec: clamping of the Poly1305 `r` key half
(RFC 8439 section 2.5). -/
def polyClamp (r : Nat) : Nat := r &&& 0x0ffffffc0ffffffc0ffffffc0fffffff

/-- Consecutive 16-byte chunks of a byte string; the last chunk may be
shorter. -/
def chunks16 : List Nat → List (List Nat)
  | [] => []
  | b :: rest => ((b :: rest).take 16) :: chunks16 ((b :: rest).drop 16)
termination_by l => l.length
decreasing_by
  simp [List.length_drop]
  omega

/-- Modelled from the spec: the Poly1305 tag of a message under a 32-byte
one-time key (RFC 8439 section 2.5): each chunk, extended with a 0x01 byte,
is accumulated by ((acc + n) * r) mod (2^130 - 5), and the final tag is the
low 128 bits of acc + s. -/
def poly1305Tag (msg oneTimeKey : List Nat) : List Nat :=
  let r := polyClamp (leNum (oneTimeKey.take 16))
  let s := leNum ((oneTimeKey.drop 16).take 16)
  let acc := (chunks16 msg).foldl
    (fun acc c => ((acc + (leNum c + 2 ^ (8 * c.length))) * r) % polyP) 0
  natToLEBytes 16 ((acc + s) % 2 ^ 128)

theorem length_poly1305Tag (msg oneTimeKey : List Nat) :
    (poly1305Tag msg oneTimeKey).length = 16 := by
  simp [poly1305Tag, length_natToLEBytes]

/-- Modelled from the spec: the padding that extends a byte string to a
16-byte boundary inside the AEAD MAC input (RFC 8439 section 2.8). -/
def padTo16 (l : List Nat) : List Nat :=
  List.replicate ((16 - l.length % 16) % 16) 0

/-- Modelled from the spec: the Poly1305 input authenticated by the AEAD
construction: aad, padding, ciphertext, padding, and the two lengths as
64-bit little-endian numbers (RFC 8439 section 2.8). -/
def macData (aad ct : List Nat) : List Nat :=
  aad ++ padTo16 aad ++ ct ++ padTo16 ct
    ++ natToLEBytes 8 aad.length ++ natToLEBytes 8 ct.length

-- ------------------- HChaCha20 (external primitive provider) -------------------

/-- Modelled from the spec: the HChaCha20 subkey derivation used by
XChaCha20-Poly1305 (draft-irtf-cfrg-xchacha section 2.2): the state is built
from the key and the first 16 nonce bytes, runs ten double rounds, and words
0..3 and 12..15 are the 32-byte subkey, with no final state addition. -/
def hchachaSubkey (key nonce16 : List Nat) : List Nat :=
  let s0 := [0x61707865, 0x3320646e, 0x79622d32, 0x6b206574]
    ++ bytesToWordsLE key ++ bytesToWordsLE nonce16
  let s := doubleRound^[10] s0
  wordsToBytesLE (s.take 4 ++ (s.drop 12).take 4)

theorem length_hchachaSubkey (key nonce16 : List Nat)
    (hk : key.length = 32) (hn : nonce16.length = 16) :
    (hchachaSubkey key nonce16).length = 32 := by
  simp only [hchachaSubkey, length_wordsToBytesLE, List.length_append,
    List.length_take, List.length_drop, length_doubleRound_iterate,
    length_bytesToWordsLE, List.length_cons, List.length_nil, hk, hn]
  omega

-- ------------------- Scheme parameters -------------------

/-- Scheme parameters of the generic ChaCha20-Poly1305 implementation, from
the sealed trait Chacha20Poly1305Params in
src/systems/aead/chacha20_poly1305.rs: the declared sizes together with the
bound primitive provider, given by its encryption keystream and its Poly1305
one-time key derivation. -/
structure Chacha20Poly1305Params where
  KEY_SIZE : Nat
  NONCE_SIZE : Nat
  TAG_SIZE : Nat
  coreKeystream : List Nat → List Nat → Nat → List Nat
  corePolyKey : List Nat → List Nat → List Nat

/-- The ChaCha20-Poly1305 instantiation (struct ChaCha20Poly1305Params in the
source): 32-byte key, 12-byte nonce, 16-byte tag, and the RFC 8439 provider. -/
def chaChaParams : Chacha20Poly1305Params where
  KEY_SIZE := 32
  NONCE_SIZE := 12
  TAG_SIZE := 16
  coreKeystream := fun key nonce len => chachaKeystream key nonce len
  corePolyKey := fun key nonce => (chachaBlockBytes key nonce 0).take 32

/-- The XChaCha20-Poly1305 instantiation (struct XChaCha20Poly1305Params in
the source): 32-byte key, 24-byte nonce, 16-byte tag; the provider derives an
HChaCha20 subkey from the first 16 nonce bytes and runs ChaCha20-Poly1305
with a nonce of 4 zero bytes followed by the last 8 nonce bytes. -/
def xChaChaParams : Chacha20Poly1305Params where
  KEY_SIZE := 32
  NONCE_SIZE := 24
  TAG_SIZE := 16
  coreKeystream := fun key nonce len =>
    chachaKeystream (hchachaSubkey key (nonce.take 16))
      ([0, 0, 0, 0] ++ nonce.drop 16) len
  corePolyKey := fun key nonce =>
    (chachaBlockBytes (hchachaSubkey key (nonce.take 16))
      ([0, 0, 0, 0] ++ nonce.drop 16) 0).take 32

-- ------------------- Primitive provider calls -------------------

/-- Modelled from the spec: the provider call encrypt_in_place_detached of
the chacha20poly1305 crate: the buffer is XORed with the keystream and the
detached 16-byte tag is computed over aad and the resulting ciphertext. -/
def encrypt_in_place_detached (P : Chacha20Poly1305Params)
    (key nonce aad buffer : List Nat) : List Nat × List Nat :=
  let ct := List.zipWith Nat.xor buffer (P.coreKeystream key nonce buffer.length)
  (ct, poly1305Tag (macData aad ct) (P.corePolyKey key nonce))

/-- Modelled from the spec: the provider call decrypt_in_place_detached of
the chacha20poly1305 crate: the expected tag is recomputed over aad and the
buffer (still holding ciphertext), compared with the received tag, and only
on a match is the keystream applied; on a mismatch the call fails and the
buffer keeps the ciphertext. -/
def decrypt_in_place_detached (P : Chacha20Poly1305Params)
    (key nonce aad buffer tag : List Nat) : Option (List Nat) :=
  if poly1305Tag (macData aad buffer) (P.corePolyKey key nonce) = tag then
    some (List.zipWith Nat.xor buffer (P.coreKeystream key nonce buffer.length))
  else
    none

-- ------------------- Buffer-based AEAD operations -------------------

/-- AeadEncryptor::encrypt_to_buffer from
src/systems/aead/chacha20_poly1305.rs lines 179-212: validates the key size,
the nonce size, and the output capacity (plaintext length plus tag size),
failing without touching output; on the happy path it copies the plaintext
into the output, encrypts in place, appends the detached tag right after the
ciphertext (both sealed instantiations fix TAG_SIZE = 16, the tag length),
leaves the rest of the output untouched, and returns the bytes written.  The
output buffer is returned alongside the result. -/
def encrypt_to_buffer (P : Chacha20Poly1305Params)
    (key nonce plaintext output : List Nat) (aad : Option (List Nat)) :
    CryptoResult Nat × List Nat :=
  if key.length ≠ P.KEY_SIZE then
    (.err (.Symmetric .InvalidKeySize), output)
  else if nonce.length ≠ P.NONCE_SIZE then
    (.err (.Symmetric .InvalidNonceSize), output)
  else if output.length < plaintext.length + P.TAG_SIZE then
    (.err (.Symmetric .OutputTooSmall), output)
  else
    let res := encrypt_in_place_detached P key nonce (aad.getD []) plaintext
    (.ok (plaintext.length + P.TAG_SIZE),
      res.1 ++ res.2 ++ output.drop (plaintext.length + P.TAG_SIZE))

/-- AeadDecryptor::decrypt_to_buffer from
src/systems/aead/chacha20_poly1305.rs lines 216-253: validates the key size,
the nonce size, that the input holds at least a tag, and the output capacity,
failing without touching output; then it splits the input into ciphertext
and trailing tag, copies the ciphertext into the output, and asks the
provider to verify the tag and decrypt in place; a provider failure maps to
the Decryption error (the output then holds the copied ciphertext); success
returns the plaintext length.  The output buffer is returned alongside the
result. -/
def decrypt_to_buffer (P : Chacha20Poly1305Params)
    (key nonce ciphertext_with_tag output : List Nat) (aad : Option (List Nat)) :
    CryptoResult Nat × List Nat :=
  if key.length ≠ P.KEY_SIZE then
    (.err (.Symmetric .InvalidKeySize), output)
  else if nonce.length ≠ P.NONCE_SIZE then
    (.err (.Symmetric .InvalidNonceSize), output)
  else if ciphertext_with_tag.length < P.TAG_SIZE then
    (.err (.Symmetric .InvalidCiphertext), output)
  else
    let ciphertext :=
      ciphertext_with_tag.take (ciphertext_with_tag.length - P.TAG_SIZE)
    let tag := ciphertext_with_tag.drop (ciphertext_with_tag.length - P.TAG_SIZE)
    if output.length < ciphertext.length then
      (.err (.Symmetric .OutputTooSmall), output)
    else
      match decrypt_in_place_detached P key nonce (aad.getD []) ciphertext tag with
      | none => (.err (.Symmetric .Decryption), ciphertext ++ output.drop ciphertext.length)
      | some pt => (.ok ciphertext.length, pt ++ output.drop ciphertext.length)

-- ------------------- Core lemmas about the wrapper -------------------

theorem zipWith_xor_cancel : ∀ (pt ks : List Nat), ks.length = pt.length →
    List.zipWith Nat.xor (List.zipWith Nat.xor pt ks) ks = pt
  | [], _, _ => by simp
  | _ :: _, [], h => by simp at h
  | p :: ps, k :: kss, h => by
      simp only [List.zipWith_cons_cons]
      have h2 : kss.length = ps.length := by simpa using h
      rw [zipWith_xor_cancel ps kss h2]
      show ((p ^^^ k) ^^^ k) :: ps = p :: ps
      rw [Nat.xor_assoc, Nat.xor_self, Nat.xor_zero]

/-- Shape of a structurally valid encrypt_to_buffer call: the ciphertext is
the keystream XOR of the plaintext, the tag follows it, the rest of the
output buffer is untouched, and the reported count is the plaintext length
plus the tag size. -/
theorem encrypt_to_buffer_ok (P : Chacha20Poly1305Params)
    (key nonce pt out : List Nat) (aad : Option (List Nat))
    (hk : key.length = P.KEY_SIZE) (hn : nonce.length = P.NONCE_SIZE)
    (hout : pt.length + P.TAG_SIZE ≤ out.length) :
    encrypt_to_buffer P key nonce pt out aad =
      (.ok (pt.length + P.TAG_SIZE),
        List.zipWith Nat.xor pt (P.coreKeystream key nonce pt.length)
          ++ poly1305Tag
              (macData (aad.getD [])
                (List.zipWith Nat.xor pt (P.coreKeystream key nonce pt.length)))
              (P.corePolyKey key nonce)
          ++ out.drop (pt.length + P.TAG_SIZE)) := by
  simp only [encrypt_to_buffer, encrypt_in_place_detached]
  rw [if_neg (show ¬key.length ≠ P.KEY_SIZE from fun h => h hk),
    if_neg (show ¬nonce.length ≠ P.NONCE_SIZE from fun h => h hn),
    if_neg (by omega)]

/-- Shape of a decrypt_to_buffer call on a well-formed input whose tag
matches: the plaintext is the keystream XOR of the ciphertext, written at
the front of the output buffer, and the reported count is the ciphertext
length. -/
theorem decrypt_to_buffer_ok (P : Chacha20Poly1305Params)
    (key nonce ct tg dout : List Nat) (aad : Option (List Nat))
    (hk : key.length = P.KEY_SIZE) (hn : nonce.length = P.NONCE_SIZE)
    (htg : tg.length = P.TAG_SIZE)
    (hdout : ct.length ≤ dout.length)
    (hmatch : poly1305Tag (macData (aad.getD []) ct) (P.corePolyKey key nonce) = tg) :
    decrypt_to_buffer P key nonce (ct ++ tg) dout aad =
      (.ok ct.length,
        List.zipWith Nat.xor ct (P.coreKeystream key nonce ct.length)
          ++ dout.drop ct.length) := by
  have hlen : (ct ++ tg).length = ct.length + P.TAG_SIZE := by
    rw [List.length_append, htg]
  have hA : (ct ++ tg).take ((ct ++ tg).length - P.TAG_SIZE) = ct :=
    List.take_left' (by rw [hlen]; omega)
  have hB : (ct ++ tg).drop ((ct ++ tg).length - P.TAG_SIZE) = tg :=
    List.drop_left' (by rw [hlen]; omega)
  simp only [decrypt_to_buffer, decrypt_in_place_detached, hA, hB]
  rw [if_neg (show ¬key.length ≠ P.KEY_SIZE from fun h => h hk),
    if_neg (show ¬nonce.length ≠ P.NONCE_SIZE from fun h => h hn),
    if_neg (by rw [hlen]; omega),
    if_neg (by omega),
    if_pos hmatch]

/-- Round trip of the generic implementation: on any scheme parameters whose
tag size is 16 (both sealed instantiations) and whose keystream has the
requested length at this key and nonce, decrypting the bytes written by
encrypt_to_buffer recovers the plaintext exactly. -/
theorem roundtrip_core (P : Chacha20Poly1305Params)
    (key nonce pt out dout : List Nat) (aad : Option (List Nat))
    (hk : key.length = P.KEY_SIZE) (hn : nonce.length = P.NONCE_SIZE)
    (hT : P.TAG_SIZE = 16)
    (hks : (P.coreKeystream key nonce pt.length).length = pt.length)
    (hout : pt.length + P.TAG_SIZE ≤ out.length)
    (hdout : pt.length ≤ dout.length) :
    (encrypt_to_buffer P key nonce pt out aad).1 = .ok (pt.length + P.TAG_SIZE) ∧
    decrypt_to_buffer P key nonce
        ((encrypt_to_buffer P key nonce pt out aad).2.take (pt.length + P.TAG_SIZE))
        dout aad
      = (.ok pt.length, pt ++ dout.drop pt.length) := by
  have henc := encrypt_to_buffer_ok P key nonce pt out aad hk hn hout
  obtain ⟨ct, hctdef⟩ :
      ∃ ct, List.zipWith Nat.xor pt (P.coreKeystream key nonce pt.length) = ct :=
    ⟨_, rfl⟩
  rw [hctdef] at henc
  obtain ⟨tg, htgdef⟩ :
      ∃ tg, poly1305Tag (macData (aad.getD []) ct) (P.corePolyKey key nonce) = tg :=
    ⟨_, rfl⟩
  rw [htgdef] at henc
  have hct : ct.length = pt.length := by
    rw [← hctdef, List.length_zipWith, hks, Nat.min_self]
  have htg : tg.length = P.TAG_SIZE := by
    rw [← htgdef, length_poly1305Tag, hT]
  refine ⟨by rw [henc], ?_⟩
  have htake : (encrypt_to_buffer P key nonce pt out aad).2.take (pt.length + P.TAG_SIZE)
      = ct ++ tg := by
    rw [henc]
    show (ct ++ tg ++ out.drop (pt.length + P.TAG_SIZE)).take (pt.length + P.TAG_SIZE)
      = ct ++ tg
    exact List.take_left' (by rw [List.length_append, hct, htg])
  rw [htake]
  rw [decrypt_to_buffer_ok P key nonce ct tg dout aad hk hn htg
    (by rw [hct]; exact hdout) htgdef]
  rw [hct, ← hctdef]
  rw [zipWith_xor_cancel pt (P.coreKeystream key nonce pt.length) hks]

/-- Keystream length of the ChaCha20-Poly1305 instantiation. -/
theorem chaCha_keystream_length (key nonce : List Nat) (len : Nat)
    (hk : key.length = 32) (hn : nonce.length = 12) :
    (chaChaParams.coreKeystream key nonce len).length = len :=
  length_chachaKeystream key nonce len hk hn

/-- Keystream length of the XChaCha20-Poly1305 instantiation. -/
theorem xChaCha_keystream_length (key nonce : List Nat) (len : Nat)
    (hk : key.length = 32) (hn : nonce.length = 24) :
    (xChaChaParams.coreKeystream key nonce len).length = len := by
  show (chachaKeystream (hchachaSubkey key (nonce.take 16))
      ([0, 0, 0, 0] ++ nonce.drop 16) len).length = len
  apply length_chachaKeystream
  · exact length_hchachaSubkey key (nonce.take 16) hk
      (by rw [List.length_take, hn]; omega)
  · simp [List.length_drop, hn]

-- ------------------- Concrete witness inputs -------------------

/-- Witness key: 32 zero bytes. -/
def wKey : List Nat := List.replicate 32 0

/-- Witness 12-byte nonce. -/
def wN12 : List Nat := List.replicate 12 1

/-- Witness 24-byte nonce. -/
def wN24 : List Nat := List.replicate 24 2

/-- Witness plaintext of three bytes. -/
def wPt : List Nat := [10, 20, 30]

/-- Witness associated data. -/
def wAad : Option (List Nat) := some [7, 8]

/-- Witness encryption output buffer of 19 bytes (3 + 16). -/
def wOut : List Nat := List.replicate 19 0

/-- Witness decryption output buffer of 3 bytes. -/
def wDout : List Nat := List.replicate 3 9

-- ------------------- C1: AEAD round-trip -------------------

/-- C1: for every 32-byte key, every nonce of the declared size, every
plaintext (including the empty one) and every associated-data choice
(absent, empty, or non-empty, all values of the Option), decrypting the
bytes written by encrypt_to_buffer with the same key, nonce and associated
data returns exactly the original plaintext, for both the 12-byte-nonce and
the 24-byte-nonce instantiations. -/
theorem c1_aead_roundtrip (key nonce12 nonce24 pt out1 out2 dout1 dout2 : List Nat)
    (aad : Option (List Nat))
    (hk : key.length = 32) (h12 : nonce12.length = 12) (h24 : nonce24.length = 24)
    (hout1 : pt.length + 16 ≤ out1.length) (hdout1 : pt.length ≤ dout1.length)
    (hout2 : pt.length + 16 ≤ out2.length) (hdout2 : pt.length ≤ dout2.length) :
    decrypt_to_buffer chaChaParams key nonce12
        ((encrypt_to_buffer chaChaParams key nonce12 pt out1 aad).2.take (pt.length + 16))
        dout1 aad
      = (.ok pt.length, pt ++ dout1.drop pt.length) ∧
    decrypt_to_buffer xChaChaParams key nonce24
        ((encrypt_to_buffer xChaChaParams key nonce24 pt out2 aad).2.take (pt.length + 16))
        dout2 aad
      = (.ok pt.length, pt ++ dout2.drop pt.length) := by
  constructor
  · exact (roundtrip_core chaChaParams key nonce12 pt out1 dout1 aad hk h12 rfl
      (chaCha_keystream_length key nonce12 pt.length hk h12) hout1 hdout1).2
  · exact (roundtrip_core xChaChaParams key nonce24 pt out2 dout2 aad hk h24 rfl
      (xChaCha_keystream_length key nonce24 pt.length hk h24) hout2 hdout2).2

/-- Witness for C1 at concrete inputs. -/
theorem c1_aead_roundtrip_witness :
    wKey.length = 32 ∧ wN12.length = 12 ∧ wN24.length = 24 ∧
    (decrypt_to_buffer chaChaParams wKey wN12
        ((encrypt_to_buffer chaChaParams wKey wN12 wPt wOut wAad).2.take (wPt.length + 16))
        wDout wAad
      = (.ok wPt.length, wPt ++ wDout.drop wPt.length) ∧
    decrypt_to_buffer xChaChaParams wKey wN24
        ((encrypt_to_buffer xChaChaParams wKey wN24 wPt wOut wAad).2.take (wPt.length + 16))
        wDout wAad
      = (.ok wPt.length, wPt ++ wDout.drop wPt.length)) :=
  ⟨by decide, by decide, by decide,
    c1_aead_roundtrip wKey wN12 wN24 wPt wOut wOut wDout wDout wAad
      (by decide) (by decide) (by decide) (by decide) (by decide)
      (by decide) (by decide)⟩

-- ------------------- C5: wire layout and size constants -------------------

/-- C5: every structurally valid encrypt_to_buffer call reports exactly
plaintext length plus 16 bytes written, and the output buffer holds exactly
the encrypted plaintext bytes (the provider keystream XOR of the plaintext)
immediately followed by their 16-byte Poly1305 authentication tag, with the
rest of the buffer untouched; both instantiations declare a 32-byte key and
a 16-byte tag, with nonce sizes 12 (standard) and 24 (extended). -/
theorem c5_wire_layout (key nonce12 nonce24 pt out1 out2 : List Nat)
    (aad : Option (List Nat))
    (hk : key.length = 32) (h12 : nonce12.length = 12) (h24 : nonce24.length = 24)
    (hout1 : pt.length + 16 ≤ out1.length) (hout2 : pt.length + 16 ≤ out2.length) :
    chaChaParams.KEY_SIZE = 32 ∧ chaChaParams.NONCE_SIZE = 12 ∧
    chaChaParams.TAG_SIZE = 16 ∧
    xChaChaParams.KEY_SIZE = 32 ∧ xChaChaParams.NONCE_SIZE = 24 ∧
    xChaChaParams.TAG_SIZE = 16 ∧
    ((encrypt_to_buffer chaChaParams key nonce12 pt out1 aad).1
        = .ok (pt.length + 16) ∧
      (encrypt_to_buffer chaChaParams key nonce12 pt out1 aad).2
        = List.zipWith Nat.xor pt (chaChaParams.coreKeystream key nonce12 pt.length)
          ++ poly1305Tag
              (macData (aad.getD [])
                (List.zipWith Nat.xor pt (chaChaParams.coreKeystream key nonce12 pt.length)))
              (chaChaParams.corePolyKey key nonce12)
          ++ out1.drop (pt.length + 16) ∧
      (List.zipWith Nat.xor pt (chaChaParams.coreKeystream key nonce12 pt.length)).length
        = pt.length ∧
      (poly1305Tag
          (macData (aad.getD [])
            (List.zipWith Nat.xor pt (chaChaParams.coreKeystream key nonce12 pt.length)))
          (chaChaParams.corePolyKey key nonce12)).length = 16) ∧
    ((encrypt_to_buffer xChaChaParams key nonce24 pt out2 aad).1
        = .ok (pt.length + 16) ∧
      (encrypt_to_buffer xChaChaParams key nonce24 pt out2 aad).2
        = List.zipWith Nat.xor pt (xChaChaParams.coreKeystream key nonce24 pt.length)
          ++ poly1305Tag
              (macData (aad.getD [])
                (List.zipWith Nat.xor pt (xChaChaParams.coreKeystream key nonce24 pt.length)))
              (xChaChaParams.corePolyKey key nonce24)
          ++ out2.drop (pt.length + 16) ∧
      (List.zipWith Nat.xor pt (xChaChaParams.coreKeystream key nonce24 pt.length)).length
        = pt.length ∧
      (poly1305Tag
          (macData (aad.getD [])
            (List.zipWith Nat.xor pt (xChaChaParams.coreKeystream key nonce24 pt.length)))
          (xChaChaParams.corePolyKey key nonce24)).length = 16) := by
  refine ⟨rfl, rfl, rfl, rfl, rfl, rfl,
    ⟨?_, ?_, ?_, length_poly1305Tag _ _⟩, ⟨?_, ?_, ?_, length_poly1305Tag _ _⟩⟩
  · rw [encrypt_to_buffer_ok chaChaParams key nonce12 pt out1 aad hk h12 hout1]
    exact rfl
  · rw [encrypt_to_buffer_ok chaChaParams key nonce12 pt out1 aad hk h12 hout1]
    exact rfl
  · rw [List.length_zipWith, chaCha_keystream_length key nonce12 pt.length hk h12,
      Nat.min_self]
  · rw [encrypt_to_buffer_ok xChaChaParams key nonce24 pt out2 aad hk h24 hout2]
    exact rfl
  · rw [encrypt_to_buffer_ok xChaChaParams key nonce24 pt out2 aad hk h24 hout2]
    exact rfl
  · rw [List.length_zipWith, xChaCha_keystream_length key nonce24 pt.length hk h24,
      Nat.min_self]

/-- Witness for C5 at concrete inputs. -/
theorem c5_wire_layout_witness :
    wKey.length = 32 ∧ wPt.length + 16 ≤ wOut.length ∧
    (chaChaParams.KEY_SIZE = 32 ∧ chaChaParams.NONCE_SIZE = 12 ∧
      chaChaParams.TAG_SIZE = 16 ∧
      xChaChaParams.KEY_SIZE = 32 ∧ xChaChaParams.NONCE_SIZE = 24 ∧
      xChaChaParams.TAG_SIZE = 16 ∧
      ((encrypt_to_buffer chaChaParams wKey wN12 wPt wOut wAad).1
          = .ok (wPt.length + 16) ∧
        (encrypt_to_buffer chaChaParams wKey wN12 wPt wOut wAad).2
          = List.zipWith Nat.xor wPt (chaChaParams.coreKeystream wKey wN12 wPt.length)
            ++ poly1305Tag
                (macData (wAad.getD [])
                  (List.zipWith Nat.xor wPt (chaChaParams.coreKeystream wKey wN12 wPt.length)))
                (chaChaParams.corePolyKey wKey wN12)
            ++ wOut.drop (wPt.length + 16) ∧
        (List.zipWith Nat.xor wPt (chaChaParams.coreKeystream wKey wN12 wPt.length)).length
          = wPt.length ∧
        (poly1305Tag
            (macData (wAad.getD [])
              (List.zipWith Nat.xor wPt (chaChaParams.coreKeystream wKey wN12 wPt.length)))
            (chaChaParams.corePolyKey wKey wN12)).length = 16) ∧
      ((encrypt_to_buffer xChaChaParams wKey wN24 wPt wOut wAad).1
          = .ok (wPt.length + 16) ∧
        (encrypt_to_buffer xChaChaParams wKey wN24 wPt wOut wAad).2
          = List.zipWith Nat.xor wPt (xChaChaParams.coreKeystream wKey wN24 wPt.length)
            ++ poly1305Tag
                (macData (wAad.getD [])
                  (List.zipWith Nat.xor wPt (xChaChaParams.coreKeystream wKey wN24 wPt.length)))
                (xChaChaParams.corePolyKey wKey wN24)
            ++ wOut.drop (wPt.length + 16) ∧
        (List.zipWith Nat.xor wPt (xChaChaParams.coreKeystream wKey wN24 wPt.length)).length
          = wPt.length ∧
        (poly1305Tag
            (macData (wAad.getD [])
              (List.zipWith Nat.xor wPt (xChaChaParams.coreKeystream wKey wN24 wPt.length)))
            (xChaChaParams.corePolyKey wKey wN24)).length = 16)) :=
  ⟨by decide, by decide,
    c5_wire_layout wKey wN12 wN24 wPt wOut wOut wAad
      (by decide) (by decide) (by decide) (by decide) (by decide)⟩

-- ------------------- C7: associated-data normalization -------------------

/-- C7: for every scheme parameter set, key, nonce, plaintext and buffers,
encrypting (and decrypting) with absent associated data is exactly the same
call as with present-but-empty associated data; in particular a ciphertext
produced with absent associated data decrypts successfully under the empty
one and vice versa (shown on the standard instantiation). -/
theorem c7_aad_normalization (P : Chacha20Poly1305Params)
    (key nonce pt input out : List Nat)
    (key2 nonce12 pt2 out2 dout2 : List Nat)
    (hk : key2.length = 32) (h12 : nonce12.length = 12)
    (hout : pt2.length + 16 ≤ out2.length) (hdout : pt2.length ≤ dout2.length) :
    encrypt_to_buffer P key nonce pt out none
      = encrypt_to_buffer P key nonce pt out (some []) ∧
    decrypt_to_buffer P key nonce input out none
      = decrypt_to_buffer P key nonce input out (some []) ∧
    decrypt_to_buffer chaChaParams key2 nonce12
        ((encrypt_to_buffer chaChaParams key2 nonce12 pt2 out2 none).2.take
          (pt2.length + 16))
        dout2 (some [])
      = (.ok pt2.length, pt2 ++ dout2.drop pt2.length) ∧
    decrypt_to_buffer chaChaParams key2 nonce12
        ((encrypt_to_buffer chaChaParams key2 nonce12 pt2 out2 (some [])).2.take
          (pt2.length + 16))
        dout2 none
      = (.ok pt2.length, pt2 ++ dout2.drop pt2.length) := by
  refine ⟨rfl, rfl, ?_, ?_⟩
  · exact (roundtrip_core chaChaParams key2 nonce12 pt2 out2 dout2 none hk h12 rfl
      (chaCha_keystream_length key2 nonce12 pt2.length hk h12) hout hdout).2
  · exact (roundtrip_core chaChaParams key2 nonce12 pt2 out2 dout2 (some []) hk h12 rfl
      (chaCha_keystream_length key2 nonce12 pt2.length hk h12) hout hdout).2

/-- Witness for C7 at concrete inputs. -/
theorem c7_aad_normalization_witness :
    wKey.length = 32 ∧
    (encrypt_to_buffer chaChaParams wKey wN12 wPt wOut none
        = encrypt_to_buffer chaChaParams wKey wN12 wPt wOut (some []) ∧
      decrypt_to_buffer chaChaParams wKey wN12 wPt wOut none
        = decrypt_to_buffer chaChaParams wKey wN12 wPt wOut (some []) ∧
      decrypt_to_buffer chaChaParams wKey wN12
          ((encrypt_to_buffer chaChaParams wKey wN12 wPt wOut none).2.take
            (wPt.length + 16))
          wDout (some [])
        = (.ok wPt.length, wPt ++ wDout.drop wPt.length) ∧
      decrypt_to_buffer chaChaParams wKey wN12
          ((encrypt_to_buffer chaChaParams wKey wN12 wPt wOut (some [])).2.take
            (wPt.length + 16))
          wDout none
        = (.ok wPt.length, wPt ++ wDout.drop wPt.length)) :=
  ⟨by decide,
    c7_aad_normalization chaChaParams wKey wN12 wPt wPt wOut wKey wN12 wPt wOut wDout
      (by decide) (by decide) (by decide) (by decide)⟩

-- ------------------- C3: structural validation, no partial write -------------------

/-- C3: on every scheme parameter set, a key of the wrong length makes both
buffer calls fail with InvalidKeySize, a nonce of the wrong length with
InvalidNonceSize, an encryption output buffer shorter than plaintext plus
tag with OutputTooSmall, and a decryption input shorter than the tag with
InvalidCiphertext; in every such failure the output buffer is returned
completely untouched. -/
theorem c3_structural_validation (P : Chacha20Poly1305Params)
    (key nonce pt input out : List Nat) (aad : Option (List Nat)) :
    (key.length ≠ P.KEY_SIZE →
      encrypt_to_buffer P key nonce pt out aad
        = (.err (.Symmetric .InvalidKeySize), out) ∧
      decrypt_to_buffer P key nonce input out aad
        = (.err (.Symmetric .InvalidKeySize), out)) ∧
    (key.length = P.KEY_SIZE → nonce.length ≠ P.NONCE_SIZE →
      encrypt_to_buffer P key nonce pt out aad
        = (.err (.Symmetric .InvalidNonceSize), out) ∧
      decrypt_to_buffer P key nonce input out aad
        = (.err (.Symmetric .InvalidNonceSize), out)) ∧
    (key.length = P.KEY_SIZE → nonce.length = P.NONCE_SIZE →
      out.length < pt.length + P.TAG_SIZE →
      encrypt_to_buffer P key nonce pt out aad
        = (.err (.Symmetric .OutputTooSmall), out)) ∧
    (key.length = P.KEY_SIZE → nonce.length = P.NONCE_SIZE →
      input.length < P.TAG_SIZE →
      decrypt_to_buffer P key nonce input out aad
        = (.err (.Symmetric .InvalidCiphertext), out)) := by
  refine ⟨fun h => ⟨?_, ?_⟩, fun hk hn => ⟨?_, ?_⟩, fun hk hn h => ?_, fun hk hn h => ?_⟩
  · simp only [encrypt_to_buffer]
    rw [if_pos h]
  · simp only [decrypt_to_buffer]
    rw [if_pos h]
  · simp only [encrypt_to_buffer]
    rw [if_neg (fun hh => hh hk), if_pos hn]
  · simp only [decrypt_to_buffer]
    rw [if_neg (fun hh => hh hk), if_pos hn]
  · simp only [encrypt_to_buffer]
    rw [if_neg (fun hh => hh hk), if_neg (fun hh => hh hn), if_pos h]
  · simp only [decrypt_to_buffer]
    rw [if_neg (fun hh => hh hk), if_neg (fun hh => hh hn), if_pos h]

/-- Witness for C3 at concrete inputs: a 1-byte key is rejected on the
standard instantiation and the buffer comes back untouched. -/
theorem c3_structural_validation_witness :
    encrypt_to_buffer chaChaParams [1] wN12 wPt wOut wAad
      = (.err (.Symmetric .InvalidKeySize), wOut) ∧
    decrypt_to_buffer chaChaParams [1] wN12 wPt wOut wAad
      = (.err (.Symmetric .InvalidKeySize), wOut) :=
  (c3_structural_validation chaChaParams [1] wN12 wPt wPt wOut wAad).1 (by decide)

-- ------------------- C10: decrypt output-capacity check -------------------

/-- Result of a decrypt_to_buffer call that reports success: the count is
always the input length minus the tag size. -/
theorem decrypt_ok_length (P : Chacha20Poly1305Params)
    (key nonce input out : List Nat) (aad : Option (List Nat)) (n : Nat)
    (h : (decrypt_to_buffer P key nonce input out aad).1 = .ok n) :
    n = input.length - P.TAG_SIZE := by
  simp only [decrypt_to_buffer] at h
  repeat' split at h
  all_goals simp at h
  all_goals omega

/-- Failure of a decrypt_to_buffer call whose structural checks pass but
whose output buffer is too small: OutputTooSmall, with the buffer returned
untouched. -/
theorem decrypt_capacity_err (P : Chacha20Poly1305Params)
    (key nonce input out : List Nat) (aad : Option (List Nat))
    (hk : key.length = P.KEY_SIZE) (hn : nonce.length = P.NONCE_SIZE)
    (hin : P.TAG_SIZE ≤ input.length)
    (hcap : out.length < input.length - P.TAG_SIZE) :
    decrypt_to_buffer P key nonce input out aad
      = (.err (.Symmetric .OutputTooSmall), out) := by
  simp only [decrypt_to_buffer]
  rw [if_neg (fun hh => hh hk), if_neg (fun hh => hh hn), if_neg (by omega),
    if_pos (by rw [List.length_take]; omega)]

/-- C10: for both instantiations, when key, nonce and input pass the
structural checks but the output buffer is shorter than the input length
minus the 16-byte tag, decrypt_to_buffer returns OutputTooSmall with the
buffer untouched; and whenever it reports success the count is exactly the
input length minus 16. -/
theorem c10_decrypt_output_capacity (key nonce12 nonce24 input out : List Nat)
    (aad : Option (List Nat)) (n : Nat)
    (hk : key.length = 32) (h12 : nonce12.length = 12) (h24 : nonce24.length = 24)
    (hin : 16 ≤ input.length) :
    (out.length < input.length - 16 →
      decrypt_to_buffer chaChaParams key nonce12 input out aad
        = (.err (.Symmetric .OutputTooSmall), out) ∧
      decrypt_to_buffer xChaChaParams key nonce24 input out aad
        = (.err (.Symmetric .OutputTooSmall), out)) ∧
    ((decrypt_to_buffer chaChaParams key nonce12 input out aad).1 = .ok n →
      n = input.length - 16) ∧
    ((decrypt_to_buffer xChaChaParams key nonce24 input out aad).1 = .ok n →
      n = input.length - 16) :=
  ⟨fun hcap =>
    ⟨decrypt_capacity_err chaChaParams key nonce12 input out aad hk h12 hin hcap,
     decrypt_capacity_err xChaChaParams key nonce24 input out aad hk h24 hin hcap⟩,
   fun h => decrypt_ok_length chaChaParams key nonce12 input out aad n h,
   fun h => decrypt_ok_length xChaChaParams key nonce24 input out aad n h⟩

/-- Witness for C10 at concrete inputs: a 20-byte input against a 3-byte
output buffer. -/
theorem c10_decrypt_output_capacity_witness :
    decrypt_to_buffer chaChaParams wKey wN12 (List.replicate 20 3) [0, 0, 0] none
      = (.err (.Symmetric .OutputTooSmall), [0, 0, 0]) ∧
    decrypt_to_buffer xChaChaParams wKey wN24 (List.replicate 20 3) [0, 0, 0] none
      = (.err (.Symmetric .OutputTooSmall), [0, 0, 0]) :=
  (c10_decrypt_output_capacity wKey wN12 wN24 (List.replicate 20 3) [0, 0, 0] none 0
    (by decide) (by decide) (by decide) (by decide)).1 (by decide)

-- ------------------- Tag mismatch behaviour (supporting lemma) -------------------

/-- Behaviour of decrypt_to_buffer on a well-formed input whose recomputed
tag does not match the received one: the call returns the Decryption error
and the output buffer holds the copied ciphertext, never a decrypted
plaintext reported as valid. -/
theorem decrypt_tag_mismatch_err (P : Chacha20Poly1305Params)
    (key nonce ct tg dout : List Nat) (aad : Option (List Nat))
    (hk : key.length = P.KEY_SIZE) (hn : nonce.length = P.NONCE_SIZE)
    (htg : tg.length = P.TAG_SIZE)
    (hdout : ct.length ≤ dout.length)
    (hmismatch : poly1305Tag (macData (aad.getD []) ct) (P.corePolyKey key nonce) ≠ tg) :
    decrypt_to_buffer P key nonce (ct ++ tg) dout aad
      = (.err (.Symmetric .Decryption), ct ++ dout.drop ct.length) := by
  have hlen : (ct ++ tg).length = ct.length + P.TAG_SIZE := by
    rw [List.length_append, htg]
  have hA : (ct ++ tg).take ((ct ++ tg).length - P.TAG_SIZE) = ct :=
    List.take_left' (by rw [hlen]; omega)
  have hB : (ct ++ tg).drop ((ct ++ tg).length - P.TAG_SIZE) = tg :=
    List.drop_left' (by rw [hlen]; omega)
  simp only [decrypt_to_buffer, decrypt_in_place_detached, hA, hB]
  rw [if_neg (show ¬key.length ≠ P.KEY_SIZE from fun h => h hk),
    if_neg (show ¬nonce.length ≠ P.NONCE_SIZE from fun h => h hn),
    if_neg (by rw [hlen]; omega),
    if_neg (by omega),
    if_neg hmismatch]

-- ------------------- Dilithium signature scheme -------------------

/-- Scheme parameters of the generic Dilithium implementation, from the
sealed trait DilithiumParams in
src/systems/asymmetric/post_quantum/dilithium.rs: the per-level key sizes
(public_key_bytes, secret_key_bytes, delegating to the pqcrypto provider),
together with the provider's detached-signature size and its raw
verification function, both modelled from the spec as external constants of
the pqcrypto collaborator (signature bytes are a fixed length per scheme;
the lattice mathematics is out of scope). -/
structure DilithiumParams where
  public_key_bytes : Nat
  secret_key_bytes : Nat
  signature_bytes : Nat
  rawVerify : List Nat → List Nat → List Nat → Bool

/-- Key::from_bytes for DilithiumPublicKey, from
src/systems/asymmetric/post_quantum/dilithium.rs lines 193-206: the byte
string must have exactly the declared public-key length, otherwise
InvalidEncoding and no key is constructed.  A key value is its byte
content. -/
def dilithium_public_key_from_bytes (P : DilithiumParams) (bytes : List Nat) :
    CryptoResult (List Nat) :=
  if bytes.length ≠ P.public_key_bytes then .err (.Key .InvalidEncoding)
  else .ok bytes

/-- Key::from_bytes for DilithiumSecretKey, from
src/systems/asymmetric/post_quantum/dilithium.rs lines 209-222: the byte
string must have exactly the declared secret-key length, otherwise
InvalidEncoding and no key is constructed. -/
def dilithium_secret_key_from_bytes (P : DilithiumParams) (bytes : List Nat) :
    CryptoResult (List Nat) :=
  if bytes.length ≠ P.secret_key_bytes then .err (.Key .InvalidEncoding)
  else .ok bytes

/-- Verifier::verify for DilithiumScheme, from
src/systems/asymmetric/post_quantum/dilithium.rs lines 278-290: the public
key is decoded by the provider (failure maps to Key InvalidEncoding), the
signature bytes are decoded defensively (a structurally invalid encoding,
i.e. a wrong length per the pqcrypto contract, maps to InvalidSignature
without running verification), and a well-encoded non-matching signature
maps to Verification.  The function is total: no input panics. -/
def dilithium_verify (P : DilithiumParams) (pk msg sig : List Nat) :
    CryptoResult Unit :=
  if pk.length ≠ P.public_key_bytes then .err (.Key .InvalidEncoding)
  else if sig.length ≠ P.signature_bytes then .err (.Signature .InvalidSignature)
  else if P.rawVerify pk msg sig then .ok ()
  else .err (.Signature .Verification)

/-- Concrete parameter set exercising the Dilithium model in witnesses. -/
def wDilithiumParams : DilithiumParams where
  public_key_bytes := 4
  secret_key_bytes := 6
  signature_bytes := 8
  rawVerify := fun pk msg sig => pk ++ msg == sig

-- ------------------- ECDH P-256 key lifecycle -------------------

/-- Scheme parameters of the ECDH key wrappers, from the sealed trait
EcdhParams in src/systems/asymmetric/traditional/ecdh.rs: the two structural
validators delegate to the external p256 DER parsers
(from_public_key_der / from_pkcs8_der), modelled from the spec as abstract
predicates on the byte encoding. -/
structure EcdhParams where
  validate_public_key : List Nat → Bool
  validate_private_key : List Nat → Bool

/-- Key::from_bytes for EcdhPublicKey, from
src/systems/asymmetric/traditional/ecdh.rs lines 171-183 and 112-119: the
bytes must parse as SubjectPublicKeyInfo DER, otherwise the call returns
KeyAgreement InvalidPeerPublicKey and no key is constructed. -/
def ecdh_public_key_from_bytes (P : EcdhParams) (bytes : List Nat) :
    CryptoResult (List Nat) :=
  if P.validate_public_key bytes then .ok bytes
  else .err (.KeyAgreement .InvalidPeerPublicKey)

/-- Key::from_bytes for EcdhPrivateKey, from
src/systems/asymmetric/traditional/ecdh.rs lines 195-207 and 121-125: the
bytes must parse as PKCS#8 DER, otherwise the call returns Key
InvalidEncoding and no key is constructed. -/
def ecdh_private_key_from_bytes (P : EcdhParams) (bytes : List Nat) :
    CryptoResult (List Nat) :=
  if P.validate_private_key bytes then .ok bytes
  else .err (.Key .InvalidEncoding)

/-- Concrete parameter set exercising the ECDH key model in witnesses. -/
def wEcdhParams : EcdhParams where
  validate_public_key := fun b => b.length == 91
  validate_private_key := fun b => b.length == 138

-- ------------------- C6: from_bytes validates before construction -------------------

/-- C6: for every byte string, from_bytes returns a key exactly when the
scheme's structural validation passes (exact declared length for Dilithium
public and secret keys, a successful DER parse for ECDH public and private
keys), the returned key is the validated byte content, and otherwise the
call returns the invalid-encoding error of its key family
(Key InvalidEncoding; for peer public keys KeyAgreement
InvalidPeerPublicKey) without constructing any key. -/
theorem c6_from_bytes_validation (Pd : DilithiumParams) (Pe : EcdhParams)
    (b : List Nat) :
    (∀ k, dilithium_public_key_from_bytes Pd b = .ok k ↔
      (b.length = Pd.public_key_bytes ∧ k = b)) ∧
    (b.length ≠ Pd.public_key_bytes →
      dilithium_public_key_from_bytes Pd b = .err (.Key .InvalidEncoding)) ∧
    (∀ k, dilithium_secret_key_from_bytes Pd b = .ok k ↔
      (b.length = Pd.secret_key_bytes ∧ k = b)) ∧
    (b.length ≠ Pd.secret_key_bytes →
      dilithium_secret_key_from_bytes Pd b = .err (.Key .InvalidEncoding)) ∧
    (∀ k, ecdh_public_key_from_bytes Pe b = .ok k ↔
      (Pe.validate_public_key b = true ∧ k = b)) ∧
    (Pe.validate_public_key b = false →
      ecdh_public_key_from_bytes Pe b = .err (.KeyAgreement .InvalidPeerPublicKey)) ∧
    (∀ k, ecdh_private_key_from_bytes Pe b = .ok k ↔
      (Pe.validate_private_key b = true ∧ k = b)) ∧
    (Pe.validate_private_key b = false →
      ecdh_private_key_from_bytes Pe b = .err (.Key .InvalidEncoding)) := by
  refine ⟨fun k => ?_, fun h => ?_, fun k => ?_, fun h => ?_,
    fun k => ?_, fun h => ?_, fun k => ?_, fun h => ?_⟩
  · by_cases h : b.length = Pd.public_key_bytes <;>
      simp [dilithium_public_key_from_bytes, h, eq_comm]
  · simp [dilithium_public_key_from_bytes, h]
  · by_cases h : b.length = Pd.secret_key_bytes <;>
      simp [dilithium_secret_key_from_bytes, h, eq_comm]
  · simp [dilithium_secret_key_from_bytes, h]
  · by_cases h : Pe.validate_public_key b <;>
      simp [ecdh_public_key_from_bytes, h, eq_comm]
  · simp [ecdh_public_key_from_bytes, h]
  · by_cases h : Pe.validate_private_key b <;>
      simp [ecdh_private_key_from_bytes, h, eq_comm]
  · simp [ecdh_private_key_from_bytes, h]

/-- Witness for C6 at a concrete byte string. -/
theorem c6_from_bytes_validation_witness :
    ([9, 9, 9] : List Nat).length ≠ wDilithiumParams.public_key_bytes ∧
    dilithium_public_key_from_bytes wDilithiumParams [9, 9, 9]
      = .err (.Key .InvalidEncoding) ∧
    (dilithium_public_key_from_bytes wDilithiumParams [9, 9, 9, 9] = .ok [9, 9, 9, 9] ↔
      (([9, 9, 9, 9] : List Nat).length = wDilithiumParams.public_key_bytes ∧
        ([9, 9, 9, 9] : List Nat) = [9, 9, 9, 9])) :=
  ⟨by decide,
    (c6_from_bytes_validation wDilithiumParams wEcdhParams [9, 9, 9]).2.1 (by decide),
    (c6_from_bytes_validation wDilithiumParams wEcdhParams [9, 9, 9, 9]).1 [9, 9, 9, 9]⟩

-- ------------------- C9: defensive verification -------------------

/-- C9: for every public key of the declared length, every message and
every signature byte string, a structurally invalid signature encoding (a
length other than the scheme's detached-signature size) makes verify return
InvalidSignature without running the provider verification, and a
well-encoded signature the provider rejects makes it return Verification;
the embedded verify is a total function, so no input can panic. -/
theorem c9_defensive_verification (P : DilithiumParams) (pk msg sig : List Nat)
    (hpk : pk.length = P.public_key_bytes) :
    (sig.length ≠ P.signature_bytes →
      dilithium_verify P pk msg sig = .err (.Signature .InvalidSignature)) ∧
    (sig.length = P.signature_bytes → P.rawVerify pk msg sig = false →
      dilithium_verify P pk msg sig = .err (.Signature .Verification)) := by
  constructor
  · intro h
    simp only [dilithium_verify]
    rw [if_neg (show ¬pk.length ≠ P.public_key_bytes from fun hh => hh hpk),
      if_pos h]
  · intro hlen hfail
    simp only [dilithium_verify]
    rw [if_neg (show ¬pk.length ≠ P.public_key_bytes from fun hh => hh hpk),
      if_neg (show ¬sig.length ≠ P.signature_bytes from fun hh => hh hlen),
      if_neg (by rw [hfail]; exact Bool.false_ne_true)]

/-- Witness for C9 at concrete inputs: a 1-byte signature is structurally
invalid for the 8-byte scheme, and a well-encoded non-matching signature is
rejected with Verification. -/
theorem c9_defensive_verification_witness :
    dilithium_verify wDilithiumParams [0, 0, 0, 0] [5] [1]
      = .err (.Signature .InvalidSignature) ∧
    dilithium_verify wDilithiumParams [0, 0, 0, 0] [5] [9, 9, 9, 9, 9, 9, 9, 9]
      = .err (.Signature .Verification) :=
  ⟨(c9_defensive_verification wDilithiumParams [0, 0, 0, 0] [5] [1]
      (by decide)).1 (by decide),
    (c9_defensive_verification wDilithiumParams [0, 0, 0, 0] [5]
      [9, 9, 9, 9, 9, 9, 9, 9] (by decide)).2 (by decide) (by decide)⟩

-- ------------------- C8: algorithm identity constants -------------------

/-- The three Dilithium security-level instantiations (type aliases
Dilithium2, Dilithium3, Dilithium5 of DilithiumScheme over the marker
structs). -/
inductive DilithiumLevel where
  | two
  | three
  | five
deriving DecidableEq, Repr

/-- Algorithm name of every Dilithium security level, from the Algorithm
impl for DilithiumScheme in
src/systems/asymmetric/post_quantum/dilithium.rs lines 249-251: the impl is
generic over the level and sets NAME to the single string "Dilithium". -/
def dilithium_scheme_name (_level : DilithiumLevel) : String := "Dilithium"

/-- Modelled from the spec: the Algorithm trait itself
(src/traits/algorithm.rs) is not under src/; the Dilithium Algorithm impl
overrides only NAME, so its numeric identifier is the trait-level default
constant, one value shared by every implementor that does not override it. -/
def algorithm_default_id : Nat := 0

/-- Numeric identifier of every Dilithium security level: the generic
Algorithm impl sets no ID, so every level exposes the trait default. -/
def dilithium_scheme_id (_level : DilithiumLevel) : Nat := algorithm_default_id

/-- Algorithm name of the ChaCha20-Poly1305 instantiation, from
src/systems/aead/chacha20_poly1305.rs line 110. -/
def chaCha20Poly1305_NAME : String := "ChaCha20-Poly1305"

/-- Numeric identifier of the ChaCha20-Poly1305 instantiation, from
src/systems/aead/chacha20_poly1305.rs line 111. -/
def chaCha20Poly1305_ID : Nat := 0x02020101

/-- Algorithm name of the XChaCha20-Poly1305 instantiation, from
src/systems/aead/chacha20_poly1305.rs line 127. -/
def xChaCha20Poly1305_NAME : String := "XChaCha20-Poly1305"

/-- Numeric identifier of the XChaCha20-Poly1305 instantiation, from
src/systems/aead/chacha20_poly1305.rs line 128. -/
def xChaCha20Poly1305_ID : Nat := 0x02020201

/-- Counterexample to C8: Dilithium2 and Dilithium3 are different
instantiations of the signature scheme, yet they expose the identical name
constant "Dilithium" and the identical numeric identifier, so each
Dilithium security-level instantiation does not carry its own identity
constants. -/
theorem c8_identity_counterexample :
    DilithiumLevel.two ≠ DilithiumLevel.three ∧
    dilithium_scheme_name DilithiumLevel.two
      = dilithium_scheme_name DilithiumLevel.three ∧
    dilithium_scheme_id DilithiumLevel.two
      = dilithium_scheme_id DilithiumLevel.three := by
  exact ⟨by decide, rfl, rfl⟩

/-- C8 amended: the two AEAD instantiations each carry their own distinct
name and numeric identifier (ChaCha20-Poly1305 = 0x02020101,
XChaCha20-Poly1305 = 0x02020201), while the Dilithium security-level
instantiations all expose the single family name "Dilithium" and the shared
trait-default numeric identifier rather than per-level identity constants. -/
theorem c8_identity_amended :
    chaCha20Poly1305_NAME ≠ xChaCha20Poly1305_NAME ∧
    chaCha20Poly1305_ID ≠ xChaCha20Poly1305_ID ∧
    chaCha20Poly1305_ID = 0x02020101 ∧
    xChaCha20Poly1305_ID = 0x02020201 ∧
    (∀ l, dilithium_scheme_name l = "Dilithium") ∧
    (∀ l m, dilithium_scheme_id l = dilithium_scheme_id m) :=
  ⟨by decide, by decide, rfl, rfl, fun _ => rfl, fun _ _ => rfl⟩

-- ------------------- C4: key-agreement symmetry -------------------

/-- Modelled from the spec: an ECDH keypair after successful structural
validation, as the provider sees it: a private scalar and a public curve
point.  The elliptic-curve arithmetic is out of scope for the repository
(supplied by the p256 crate), so the curve group is an abstract additive
commutative monoid with a distinguished base point. -/
structure EcdhKeypair (G : Type) where
  privScalar : Nat
  pubPoint : G

/-- Validity of a keypair for a base point: the public point is the private
scalar times the base point, which holds for generated keypairs
(KeyGenerator::generate_keypair derives the public key from the secret) and
for keys deserialized from valid encodings of such pairs. -/
def ecdh_keypair_valid {G : Type} [AddCommMonoid G] (gen : G)
    (kp : EcdhKeypair G) : Prop :=
  kp.pubPoint = kp.privScalar • gen

/-- Modelled from the spec: KeyAgreement::agree from
src/systems/asymmetric/traditional/ecdh.rs lines 267-281, at the post-parse
level: both DER parses succeed on keys constructed through validation, and
the call returns the Diffie-Hellman product of the private scalar with the
peer public point (ecdh::diffie_hellman of the p256 provider). -/
def ecdh_agree {G : Type} [AddCommMonoid G] (sk : Nat) (peerPub : G) : G :=
  sk • peerPub

/-- C4: for all valid keypairs A and B, agreement is symmetric: A's private
scalar applied to B's public point equals B's private scalar applied to A's
public point, so both calls succeed with identical shared secrets. -/
theorem c4_key_agreement_symmetry {G : Type} [AddCommMonoid G] (gen : G)
    (A B : EcdhKeypair G)
    (hA : ecdh_keypair_valid gen A) (hB : ecdh_keypair_valid gen B) :
    ecdh_agree A.privScalar B.pubPoint = ecdh_agree B.privScalar A.pubPoint := by
  unfold ecdh_keypair_valid at hA hB
  unfold ecdh_agree
  rw [hA, hB, smul_smul, smul_smul, Nat.mul_comm]

/-- Witness for C4 at a concrete instantiation of the group contract. -/
theorem c4_key_agreement_symmetry_witness :
    ecdh_keypair_valid (3 : Nat) ⟨2, 6⟩ ∧ ecdh_keypair_valid (3 : Nat) ⟨5, 15⟩ ∧
    ecdh_agree (2 : Nat) (15 : Nat) = ecdh_agree (5 : Nat) (6 : Nat) :=
  ⟨by simp [ecdh_keypair_valid], by simp [ecdh_keypair_valid],
    c4_key_agreement_symmetry (3 : Nat) ⟨2, 6⟩ ⟨5, 15⟩
      (by simp [ecdh_keypair_valid]) (by simp [ecdh_keypair_valid])⟩
